/-
  Verification development for the newsnow agentic reasoning layer.

  Shallow embedding of:
  - the tag reconciliation subsystem (src/src/agents/base.ts `BaseAgent.reconcileTags`,
    src/server/agent/article-agent.ts `ArticleAgent.createAndAssignTags`, and the
    identical tag block of src/server/api/agent/feedback.post.ts);
  - the inference gateway (src/unnamed/part_003, class `WorkerAI`);
  - the RAG pipeline (src/src/agents/human-feedback.ts `RAGAgent`), its HTTP entry
    point (src/server/api/agent/ingest.post.ts, agentic-query handler);
  - the quality re-evaluator (src/src/agents/evaluator.ts `EvaluatorOptimizerAgent`).

  External effects (D1 database, Workers AI, the Vectorize index) are modelled as
  oracle functions returning `Except String` values: an `.error e` value stands for
  the underlying JavaScript call throwing an `Error` with message `e`, and `.ok`
  stands for normal completion.  JavaScript truthiness tests on strings and numbers
  (`x || d`) are modelled explicitly (empty string and 0 are falsy).
-/
import Mathlib

namespace NewsNow

/-! ### Tag registry model

`TagRegistryEntry` mirrors the rows of the `article_tags` table as loaded by
`BaseAgent.loadGlobalContext` (src/src/agents/base.ts).  The D1 `INSERT ...
RETURNING id, name` is modelled as allocation of the next free id; the insert is
modelled as succeeding (the schema's UNIQUE(name) cannot fire on the reconciler's
path against the registry it just consulted, see the lemmas below). -/

structure TagRegistryEntry where
  id : Nat
  name : String
  is_active : Nat
  usage_count : Nat
deriving Repr, DecidableEq

structure TagReconciliationResult where
  tagId : Nat
  tagName : String
  isNew : Bool
deriving Repr, DecidableEq

/-- Session state threaded through `reconcileTags`: the in-memory tag registry
(`this.globalContext.tagRegistry`), the store's next fresh tag id, and the trace
of tag rows actually INSERTed into `article_tags` during the call. -/
structure TagState where
  registry : List TagRegistryEntry
  nextId : Nat
  created : List (Nat × String)
deriving Repr, DecidableEq

/-- Model of JavaScript `String.prototype.toLowerCase` on one character
(ASCII case folding; the tags manipulated by the system are ASCII).  Defined
structurally so that concrete inputs evaluate inside the kernel. -/
def jsToLowerChar (c : Char) : Char :=
  if 'A' ≤ c ∧ c ≤ 'Z' then Char.ofNat (c.toNat + 32) else c

/-- Model of JavaScript `String.prototype.toLowerCase`. -/
def jsToLower (s : String) : String := String.mk (s.data.map jsToLowerChar)

/-- Whitespace recognised by JavaScript `String.prototype.trim` (the common
ASCII subset: space, tab, line feed, carriage return, form feed, vertical tab). -/
def isJsSpace (c : Char) : Bool :=
  c = ' ' || c = '\t' || c = '\n' || c = '\r' || c = Char.ofNat 12 || c = Char.ofNat 11

/-- Model of JavaScript `String.prototype.trim`. -/
def jsTrim (s : String) : String :=
  String.mk (((s.data.dropWhile isJsSpace).reverse.dropWhile isJsSpace).reverse)

/-- Normalisation used by the reconciler: `suggestedTag.trim().toLowerCase()`. -/
def tagNorm (s : String) : String := jsToLower (jsTrim s)

/-- Lowercased names of a registry (the case-insensitive comparison key). -/
def registryNorms (reg : List TagRegistryEntry) : List String :=
  reg.map (fun t => jsToLower t.name)

/-- Lowercased names of the tag rows created during a reconciliation run. -/
def createdNorms (s : TagState) : List String :=
  s.created.map (fun p => jsToLower p.2)

/-- State update performed when `reconcileTags` creates a new tag: the D1
INSERT into `article_tags` (recorded in `created`) followed by the push onto
the in-session registry snapshot. -/
def reconcileCreate (t : String) (s : TagState) : TagState :=
  { registry := s.registry ++ [{ id := s.nextId, name := jsTrim t, is_active := 1, usage_count := 0 }],
    nextId := s.nextId + 1,
    created := s.created ++ [(s.nextId, jsTrim t)] }

/-- Embedding of the loop body of `BaseAgent.reconcileTags`
(src/src/agents/base.ts lines 157-213): for each suggested tag, normalise,
look for a case-insensitive match in the session registry, reuse the canonical
entry on a hit, otherwise INSERT the trimmed original-case name and append the
new row to the session registry. -/
def reconcileTagsGo : List String → TagState → List TagReconciliationResult × TagState
  | [], s => ([], s)
  | t :: ts, s =>
    match s.registry.find? (fun tag => jsToLower tag.name == tagNorm t) with
    | some existingTag =>
      let rec' := reconcileTagsGo ts s
      ({ tagId := existingTag.id, tagName := existingTag.name, isNew := false } :: rec'.1, rec'.2)
    | none =>
      let rec' := reconcileTagsGo ts (reconcileCreate t s)
      ({ tagId := s.nextId, tagName := jsTrim t, isNew := true } :: rec'.1, rec'.2)

/-- Embedding of `BaseAgent.reconcileTags` on a freshly loaded global context
(no rows created yet in this call). -/
def reconcileTags (suggestedTags : List String) (registry : List TagRegistryEntry)
    (nextId : Nat) : List TagReconciliationResult × TagState :=
  reconcileTagsGo suggestedTags { registry := registry, nextId := nextId, created := [] }

/-! ### Exact-name tag creation (article agent and feedback handler)

`ArticleAgent.createAndAssignTags` (src/server/agent/article-agent.ts lines
397-424) and the tag block of the feedback handler
(src/server/api/agent/feedback.post.ts lines 102-127) run the same algorithm:
`SELECT id FROM article_tags WHERE name = ?` (exact, case-sensitive match under
SQLite's default BINARY collation; the column has no COLLATE NOCASE), INSERT the
name unchanged when absent, then `INSERT OR IGNORE` into `article_tag_map`. -/

structure ArticleTagDb where
  tags : List TagRegistryEntry
  nextId : Nat
  tagMap : List (Nat × Nat)
deriving Repr, DecidableEq

def insertTagMap (articleId tagId : Nat) (db : ArticleTagDb) : ArticleTagDb :=
  if (articleId, tagId) ∈ db.tagMap then db
  else { db with tagMap := db.tagMap ++ [(articleId, tagId)] }

def createAndAssignTags (articleId : Nat) : List String → ArticleTagDb → ArticleTagDb
  | [], db => db
  | tagName :: rest, db =>
    let db1 :=
      match db.tags.find? (fun t => t.name == tagName) with
      | some tag => insertTagMap articleId tag.id db
      | none =>
        let newEntry : TagRegistryEntry :=
          { id := db.nextId, name := tagName, is_active := 1, usage_count := 0 }
        insertTagMap articleId db.nextId
          { db with tags := db.tags ++ [newEntry], nextId := db.nextId + 1 }
    createAndAssignTags articleId rest db1

/-! ### Lemmas about tag reconciliation -/

theorem reconcileTagsGo_length (ts : List String) (s : TagState) :
    (reconcileTagsGo ts s).1.length = ts.length := by
  induction ts generalizing s with
  | nil => simp [reconcileTagsGo]
  | cons t ts ih =>
    cases hf : s.registry.find? (fun tag => jsToLower tag.name == tagNorm t) with
    | some e => simp [reconcileTagsGo, hf, ih]
    | none => simp [reconcileTagsGo, hf, ih]

theorem mem_registryNorms {reg : List TagRegistryEntry} {x : String} :
    x ∈ registryNorms reg ↔ ∃ tag ∈ reg, jsToLower tag.name = x := by
  simp [registryNorms]

theorem find?_none_iff {s : TagState} {t : String} :
    (s.registry.find? (fun tag => jsToLower tag.name == tagNorm t) = none) ↔
      tagNorm t ∉ registryNorms s.registry := by
  rw [List.find?_eq_none]
  simp [registryNorms]

theorem find?_some_norm_mem {s : TagState} {t : String} {e : TagRegistryEntry}
    (hf : s.registry.find? (fun tag => jsToLower tag.name == tagNorm t) = some e) :
    e ∈ s.registry ∧ jsToLower e.name = tagNorm t :=
  ⟨List.mem_of_find?_eq_some hf, by simpa using List.find?_some hf⟩

theorem registryNorms_reconcileCreate (t : String) (s : TagState) :
    registryNorms (reconcileCreate t s).registry
      = registryNorms s.registry ++ [tagNorm t] := by
  simp [reconcileCreate, registryNorms, tagNorm]

theorem createdNorms_reconcileCreate (t : String) (s : TagState) :
    createdNorms (reconcileCreate t s) = createdNorms s ++ [tagNorm t] := by
  simp [reconcileCreate, createdNorms, tagNorm]

theorem reconcileTagsGo_mem_createdNorms (ts : List String) (s : TagState) (x : String) :
    x ∈ createdNorms (reconcileTagsGo ts s).2 ↔
      x ∈ createdNorms s ∨ (x ∈ ts.map tagNorm ∧ x ∉ registryNorms s.registry) := by
  induction ts generalizing s with
  | nil => simp [reconcileTagsGo]
  | cons t ts ih =>
    cases hf : s.registry.find? (fun tag => jsToLower tag.name == tagNorm t) with
    | some e =>
      have hmem : tagNorm t ∈ registryNorms s.registry := by
        obtain ⟨h1, h2⟩ := find?_some_norm_mem hf
        exact mem_registryNorms.mpr ⟨e, h1, h2⟩
      simp only [reconcileTagsGo, hf, ih, List.map_cons, List.mem_cons]
      constructor
      · rintro (h | ⟨hx, hnx⟩)
        · exact Or.inl h
        · exact Or.inr ⟨Or.inr hx, hnx⟩
      · rintro (h | ⟨hx | hx, hnx⟩)
        · exact Or.inl h
        · exact absurd (hx ▸ hmem) hnx
        · exact Or.inr ⟨hx, hnx⟩
    | none =>
      have hnot : tagNorm t ∉ registryNorms s.registry := find?_none_iff.mp hf
      simp only [reconcileTagsGo, hf, ih, createdNorms_reconcileCreate,
        registryNorms_reconcileCreate, List.map_cons, List.mem_cons, List.mem_append,
        List.mem_singleton, List.not_mem_nil, or_false]
      constructor
      · rintro ((h | h) | ⟨hx, hnx⟩)
        · exact Or.inl h
        · exact Or.inr ⟨Or.inl h, h ▸ hnot⟩
        · exact Or.inr ⟨Or.inr hx, fun hm => hnx (Or.inl hm)⟩
      · rintro (h | ⟨hx | hx, hnx⟩)
        · exact Or.inl (Or.inl h)
        · exact Or.inl (Or.inr hx)
        · by_cases hxt : x = tagNorm t
          · exact Or.inl (Or.inr hxt)
          · exact Or.inr ⟨hx, fun hm => hm.elim hnx hxt⟩

theorem reconcileTagsGo_registry_nodup (ts : List String) (s : TagState)
    (h : (registryNorms s.registry).Nodup) :
    (registryNorms (reconcileTagsGo ts s).2.registry).Nodup := by
  induction ts generalizing s with
  | nil => simpa [reconcileTagsGo]
  | cons t ts ih =>
    cases hf : s.registry.find? (fun tag => jsToLower tag.name == tagNorm t) with
    | some e =>
      simp only [reconcileTagsGo, hf]
      exact ih s h
    | none =>
      have hnot : tagNorm t ∉ registryNorms s.registry := find?_none_iff.mp hf
      simp only [reconcileTagsGo, hf]
      apply ih
      rw [registryNorms_reconcileCreate, List.nodup_append]
      refine ⟨h, List.nodup_singleton _, ?_⟩
      intro a ha ha'
      rw [List.mem_singleton] at ha'
      exact hnot (ha' ▸ ha)

theorem reconcileTagsGo_created_nodup (ts : List String) (s : TagState)
    (hsub : ∀ x ∈ createdNorms s, x ∈ registryNorms s.registry)
    (hnd : (createdNorms s).Nodup) :
    (createdNorms (reconcileTagsGo ts s).2).Nodup := by
  induction ts generalizing s with
  | nil => simpa [reconcileTagsGo]
  | cons t ts ih =>
    cases hf : s.registry.find? (fun tag => jsToLower tag.name == tagNorm t) with
    | some e =>
      simp only [reconcileTagsGo, hf]
      exact ih s hsub hnd
    | none =>
      have hnot : tagNorm t ∉ registryNorms s.registry := find?_none_iff.mp hf
      simp only [reconcileTagsGo, hf]
      apply ih
      · intro x hx
        rw [createdNorms_reconcileCreate, List.mem_append] at hx
        rw [registryNorms_reconcileCreate, List.mem_append]
        exact hx.imp (hsub x) id
      · rw [createdNorms_reconcileCreate, List.nodup_append]
        refine ⟨hnd, List.nodup_singleton _, ?_⟩
        intro a ha ha'
        rw [List.mem_singleton] at ha'
        exact hnot (ha' ▸ hsub a ha)

/-- C2 counterexample: on the input `["Rust", "rust"]` (two suggestions that are
duplicates up to case) and an empty registry, `reconcileTags` returns TWO result
entries, both carrying the canonical name "Rust" — not exactly one entry per
distinct canonical name (of which there is one). -/
theorem reconcileTags_entry_per_name_counterexample :
    ((reconcileTags ["Rust", "rust"] [] 1).1.map (fun r => r.tagName) = ["Rust", "Rust"])
    ∧ ¬ (((reconcileTags ["Rust", "rust"] [] 1).1.map (fun r => r.tagName)).Nodup)
    ∧ ((["Rust", "rust"].map tagNorm).dedup = ["rust"]) := by
  refine ⟨by decide, by decide, by decide⟩

/-- C2 (amended): `reconcileTags` returns exactly one result entry per INPUT
element (not per distinct canonical name); it creates at most one new tag row
per distinct canonical (trimmed, lowercased) name — the lowercased names of the
created rows are pairwise distinct — and the number of created rows does not
depend on the order of the input sequence (nor on the store's id counter). -/
theorem reconcileTags_one_entry_per_input_and_distinct_creates
    (ts ts' : List String) (hp : ts.Perm ts') (reg : List TagRegistryEntry) (n n' : Nat) :
    (reconcileTags ts reg n).1.length = ts.length
    ∧ (createdNorms (reconcileTags ts reg n).2).Nodup
    ∧ (reconcileTags ts reg n).2.created.length = (reconcileTags ts' reg n').2.created.length := by
  have hnd : ∀ (u : List String) (m : Nat),
      (createdNorms (reconcileTags u reg m).2).Nodup := fun u m =>
    reconcileTagsGo_created_nodup u _ (by simp [createdNorms]) (by simp [createdNorms])
  refine ⟨reconcileTagsGo_length ts _, hnd ts n, ?_⟩
  have hmem : ∀ x, x ∈ createdNorms (reconcileTags ts reg n).2
      ↔ x ∈ createdNorms (reconcileTags ts' reg n').2 := by
    intro x
    unfold reconcileTags
    rw [reconcileTagsGo_mem_createdNorms, reconcileTagsGo_mem_createdNorms]
    simp only [createdNorms, List.map_nil, List.not_mem_nil, false_or]
    rw [(hp.map tagNorm).mem_iff]
  have hperm := (List.perm_ext_iff_of_nodup (hnd ts n) (hnd ts' n')).mpr hmem
  simpa [createdNorms] using hperm.length_eq

/-- Witness for the amended C2 theorem at a concrete permuted input. -/
theorem reconcileTags_one_entry_per_input_and_distinct_creates_witness :
    (["Rust", "rust "] : List String).Perm ["rust ", "Rust"]
    ∧ ((reconcileTags ["Rust", "rust "] [] 1).1.length = 2
      ∧ (createdNorms (reconcileTags ["Rust", "rust "] [] 1).2).Nodup
      ∧ (reconcileTags ["Rust", "rust "] [] 1).2.created.length
        = (reconcileTags ["rust ", "Rust"] [] 5).2.created.length) :=
  ⟨by decide, by
    have h := reconcileTags_one_entry_per_input_and_distinct_creates
      ["Rust", "rust "] ["rust ", "Rust"] (by decide) [] 1 5
    simpa using h⟩

/-! ### Case-insensitive uniqueness of the tag registry (C3) -/

theorem insertTagMap_tags (a t : Nat) (db : ArticleTagDb) :
    (insertTagMap a t db).tags = db.tags := by
  by_cases h : (a, t) ∈ db.tagMap <;> simp [insertTagMap, h]

theorem createAndAssignTags_names_nodup (aid : Nat) (ts : List String) (db : ArticleTagDb)
    (h : (db.tags.map (fun e => e.name)).Nodup) :
    ((createAndAssignTags aid ts db).tags.map (fun e => e.name)).Nodup := by
  induction ts generalizing db with
  | nil => simpa [createAndAssignTags]
  | cons tn ts ih =>
    cases hf : db.tags.find? (fun e => e.name == tn) with
    | some e =>
      simp only [createAndAssignTags, hf]
      exact ih _ (by rw [insertTagMap_tags]; exact h)
    | none =>
      have hnot : tn ∉ db.tags.map (fun e => e.name) := by
        intro hmem
        obtain ⟨e, he, hne⟩ := List.mem_map.mp hmem
        have hc := List.find?_eq_none.mp hf e he
        simp [hne] at hc
      simp only [createAndAssignTags, hf]
      apply ih
      rw [insertTagMap_tags]
      simp only [List.map_append, List.map_cons, List.map_nil, List.nodup_append]
      refine ⟨h, List.nodup_singleton _, ?_⟩
      intro a ha ha'
      rw [List.mem_singleton] at ha'
      exact hnot (ha' ▸ ha)

/-- C3 counterexample: starting from a store whose single active tag is "rust"
(case-insensitively unique), `createAndAssignTags` — the tag path used by
article processing and by the feedback handler — looks the suggestion "Rust" up
with an exact (case-sensitive) comparison, misses, and creates a second active
tag whose lowercased name collides with the existing one. -/
theorem tag_caseInsensitive_invariant_counterexample :
    ((registryNorms [{ id := 1, name := "rust", is_active := 1, usage_count := 0 }]).Nodup)
    ∧ ¬ ((registryNorms (createAndAssignTags 7 ["Rust"]
        { tags := [{ id := 1, name := "rust", is_active := 1, usage_count := 0 }],
          nextId := 2, tagMap := [] }).tags).Nodup) := by
  refine ⟨by decide, by decide⟩

/-- C3 (amended): tag reconciliation (`reconcileTags`) preserves case-insensitive
uniqueness of registry names — a new tag is created only when no case-insensitive
match exists, and a matching suggestion reuses the existing tag's entry.  The
exact-match tag paths (`createAndAssignTags` in the article agent and the
feedback handler) preserve only exact-name uniqueness: they create a new tag only
when no exact-name match exists, so case-variant duplicates remain possible. -/
theorem tag_uniqueness_amended
    (ts : List String) (reg : List TagRegistryEntry) (n : Nat)
    (aid : Nat) (ts2 : List String) (db : ArticleTagDb)
    (hreg : (registryNorms reg).Nodup)
    (hdb : (db.tags.map (fun e => e.name)).Nodup) :
    (registryNorms (reconcileTags ts reg n).2.registry).Nodup
    ∧ ((createAndAssignTags aid ts2 db).tags.map (fun e => e.name)).Nodup :=
  ⟨reconcileTagsGo_registry_nodup ts _ hreg, createAndAssignTags_names_nodup aid ts2 db hdb⟩

/-- Witness for the amended C3 theorem at concrete inputs. -/
theorem tag_uniqueness_amended_witness :
    ((registryNorms [{ id := 1, name := "Rust", is_active := 1, usage_count := 0 }]).Nodup
      ∧ (([{ id := 1, name := "ai", is_active := 1, usage_count := 0 }] :
          List TagRegistryEntry).map (fun e => e.name)).Nodup)
    ∧ ((registryNorms (reconcileTags ["rust", "Go"]
          [{ id := 1, name := "Rust", is_active := 1, usage_count := 0 }] 2).2.registry).Nodup
      ∧ ((createAndAssignTags 3 ["ai", "ml"]
          { tags := [{ id := 1, name := "ai", is_active := 1, usage_count := 0 }],
            nextId := 2, tagMap := [] }).tags.map (fun e => e.name)).Nodup) :=
  ⟨⟨by decide, by decide⟩, by
    exact tag_uniqueness_amended ["rust", "Go"]
      [{ id := 1, name := "Rust", is_active := 1, usage_count := 0 }] 2 3 ["ai", "ml"]
      { tags := [{ id := 1, name := "ai", is_active := 1, usage_count := 0 }],
        nextId := 2, tagMap := [] } (by decide) (by decide)⟩

/-! ### Inference gateway (src/unnamed/part_003, class WorkerAI)

Each `ai.run` invocation is an oracle value of type `Except String α`:
`.error e` models the call throwing (network failure, model error), `.ok`
models normal completion.  For the reasoning and embedding models, `.ok`
carries the `response` payload; an empty payload makes the source throw
"Empty response ..." inside the same try block, which we fold into the step
functions below.  For the structured model, `.ok none` models an empty or
unparsable response (the `JSON.parse` throw is caught by the same catch and
retried identically), `.ok (some t)` a parsed payload. -/

structure ReasoningResponse where
  success : Bool
  data : Option String
  error : Option String
deriving Repr, DecidableEq

structure StructuredResponse (T : Type) where
  success : Bool
  data : Option T
  error : Option String
deriving Repr, DecidableEq

structure EmbeddingResponse where
  success : Bool
  data : Option (List Int)
  error : Option String
deriving Repr, DecidableEq

/-- JavaScript truthiness of an optional string (`undefined` and `""` are falsy). -/
def jsTruthyStr : Option String → Bool
  | none => false
  | some s => !(s == "")

/-- JavaScript `x || d` on an optional string. -/
def jsOrStr (o : Option String) (d : String) : String :=
  match o with
  | some s => if s = "" then d else s
  | none => d

/-- Template-literal interpolation of a possibly-undefined string. -/
def tmplStr : Option String → String
  | some s => s
  | none => "undefined"

/-- One attempt of the reasoning model: a thrown error propagates, an empty
`response.response` raises "Empty response from reasoning model" inside the try. -/
def reasonStep (o : Except String String) : Except String String :=
  match o with
  | .error e => .error e
  | .ok s => if s = "" then .error "Empty response from reasoning model" else .ok s

def reasonFailMsg (maxRetries : Nat) (e : String) : String :=
  "Reasoning model failed after " ++ toString maxRetries ++ " attempts: " ++ e

/-- Retry loop of `WorkerAI.generateReasoning` (src/unnamed/part_003 lines 64-107),
written with explicit fuel (the number of remaining loop iterations, which is
`maxRetries - attempt`) so that concrete runs reduce structurally: return the
first successful payload; after the last failed attempt return a tagged failure
carrying the last error.  Exhausted fuel corresponds to the source's unreachable
fallthrough return. -/
def generateReasoningFrom (attempts : Nat → Except String String)
    (maxRetries : Nat) : Nat → Nat → ReasoningResponse
  | 0, _ =>
    { success := false, data := none, error := some "Reasoning model failed unexpectedly" }
  | fuel + 1, attempt =>
    if attempt < maxRetries then
      match reasonStep (attempts attempt) with
      | .ok s => { success := true, data := some s, error := none }
      | .error e =>
        if attempt < maxRetries - 1 then
          generateReasoningFrom attempts maxRetries fuel (attempt + 1)
        else
          { success := false, data := none, error := some (reasonFailMsg maxRetries e) }
    else
      { success := false, data := none, error := some "Reasoning model failed unexpectedly" }

/-- The retry loop entered at `attempt` (fuel instantiated to the remaining
iteration count). -/
def generateReasoningGo (attempts : Nat → Except String String)
    (maxRetries attempt : Nat) : ReasoningResponse :=
  generateReasoningFrom attempts maxRetries (maxRetries - attempt) attempt

/-- One attempt of the structured model: `.ok none` covers an empty response
("Empty response from structured model") and, behaviourally identically, an
unparsable JSON payload (both throw inside the try and are retried). -/
def structStep {T : Type} (o : Except String (Option T)) : Except String T :=
  match o with
  | .error e => .error e
  | .ok none => .error "Empty response from structured model"
  | .ok (some t) => .ok t

def structFailMsg (maxRetries : Nat) (e : String) : String :=
  "Structured model failed after " ++ toString maxRetries ++ " attempts: " ++ e

/-- Retry loop of `WorkerAI.generateStructured` (src/unnamed/part_003 lines
121-177), fuel-indexed like `generateReasoningFrom`. -/
def generateStructuredFrom {T : Type} (attempts : Nat → Except String (Option T))
    (maxRetries : Nat) : Nat → Nat → StructuredResponse T
  | 0, _ =>
    { success := false, data := none, error := some "Structured model failed unexpectedly" }
  | fuel + 1, attempt =>
    if attempt < maxRetries then
      match structStep (attempts attempt) with
      | .ok t => { success := true, data := some t, error := none }
      | .error e =>
        if attempt < maxRetries - 1 then
          generateStructuredFrom attempts maxRetries fuel (attempt + 1)
        else
          { success := false, data := none, error := some (structFailMsg maxRetries e) }
    else
      { success := false, data := none, error := some "Structured model failed unexpectedly" }

def generateStructuredGo {T : Type} (attempts : Nat → Except String (Option T))
    (maxRetries attempt : Nat) : StructuredResponse T :=
  generateStructuredFrom attempts maxRetries (maxRetries - attempt) attempt

/-- One attempt of the embedding model (`.ok none` models an empty `data` array).
Embedding vectors are abstracted to `List Int`; their components are never
inspected by the code under verification. -/
def embedStep (o : Except String (Option (List Int))) : Except String (List Int) :=
  match o with
  | .error e => .error e
  | .ok none => .error "Empty response from embedding model"
  | .ok (some v) => .ok v

def embedFailMsg (maxRetries : Nat) (e : String) : String :=
  "Embedding model failed after " ++ toString maxRetries ++ " attempts: " ++ e

/-- Retry loop of `WorkerAI.generateEmbeddings` (src/unnamed/part_003 lines
251-291), fuel-indexed like `generateReasoningFrom`. -/
def generateEmbeddingsFrom (attempts : Nat → Except String (Option (List Int)))
    (maxRetries : Nat) : Nat → Nat → EmbeddingResponse
  | 0, _ =>
    { success := false, data := none, error := some "Embedding model failed unexpectedly" }
  | fuel + 1, attempt =>
    if attempt < maxRetries then
      match embedStep (attempts attempt) with
      | .ok v => { success := true, data := some v, error := none }
      | .error e =>
        if attempt < maxRetries - 1 then
          generateEmbeddingsFrom attempts maxRetries fuel (attempt + 1)
        else
          { success := false, data := none, error := some (embedFailMsg maxRetries e) }
    else
      { success := false, data := none, error := some "Embedding model failed unexpectedly" }

def generateEmbeddingsGo (attempts : Nat → Except String (Option (List Int)))
    (maxRetries attempt : Nat) : EmbeddingResponse :=
  generateEmbeddingsFrom attempts maxRetries (maxRetries - attempt) attempt

/-! ### RAG pipeline data model (src/src/agents/human-feedback.ts, RAGAgent) -/

/-- One reference returned by the vector index (`{ id, score, metadata }`);
`articleId` is `metadata.articleId`, `score` the similarity in [0,1]. -/
structure VectorSearchResult where
  vecId : String
  score : ℚ
  articleId : Int
deriving Repr, DecidableEq

/-- Row of the `articles` table as read by `getArticleById` (the columns the
RAG pipeline and the evaluator consume). -/
structure ArticleRow where
  id : Int
  url : String
  title : Option String
  description : Option String
  author : Option String
  published_date : Option String
  time_roi : Option String
  ranking : Option Nat
  status : String
deriving Repr, DecidableEq

structure RAGQueryResult where
  thinking_process : String
  answer_markdown : String
  confidence_score : Int
  cited_article_ids : List Int
  follow_up_suggestions : List String
deriving Repr, DecidableEq

structure RAGResponse where
  success : Bool
  data : Option RAGQueryResult
  retrieved_articles : Option (List VectorSearchResult)
  error : Option String
deriving Repr, DecidableEq

/-- Observable pipeline events, used to state which stages a run invoked. -/
inductive RagStage where
  | searchEv (query : String) (limit : Nat)
  | embedEv
  | vectorQueryEv
  | synthReasoningEv
  | synthStructuringEv
deriving Repr, DecidableEq

/-- Oracle for all external effects reachable from one `answerQuery` call.
Each field fixes the outcome of the corresponding remote call (per attempt
where the gateway retries). -/
structure RagOracle where
  optAttempts : Nat → Except String String
  embedAttempts : String → Nat → Except String (Option (List Int))
  vectorQuery : List Int → Nat → Except String (List VectorSearchResult)
  lookup : Int → Except String (Option ArticleRow)
  tagsOf : Int → Except String (List String)
  synthReasonAttempts : Nat → Except String String
  synthStructAttempts : Nat → Except String (Option RAGQueryResult)

/-- Embedding of `WorkerAI.generateStructuredReasoning` (src/unnamed/part_003
lines 195-239): reasoning stage first; on its failure (or falsy data) a tagged
"Reasoning stage failed" result, otherwise the structuring stage, whose failure
yields "Structured stage failed".  The returned trace records which of the two
stages were invoked. -/
def generateStructuredReasoningT (rAtt : Nat → Except String String)
    (sAtt : Nat → Except String (Option RAGQueryResult)) (retries : Nat) :
    StructuredResponse RAGQueryResult × List RagStage :=
  let reasoningResult := generateReasoningGo rAtt retries 0
  if reasoningResult.success && jsTruthyStr reasoningResult.data then
    let structuredResult := generateStructuredGo sAtt retries 0
    if structuredResult.success then
      (structuredResult, [RagStage.synthReasoningEv, RagStage.synthStructuringEv])
    else
      ({ success := false, data := none,
         error := some ("Structured stage failed: " ++ tmplStr structuredResult.error) },
       [RagStage.synthReasoningEv, RagStage.synthStructuringEv])
  else
    ({ success := false, data := none,
       error := some ("Reasoning stage failed: " ++ tmplStr reasoningResult.error) },
     [RagStage.synthReasoningEv])

/-- Quote characters stripped by `optimizeQuery`'s cleanup regex
(one leading and one trailing double quote (34) or single quote (39)). -/
def isQuoteChar (c : Char) : Bool := c.toNat = 34 || c.toNat = 39

/-- Model of `result.data.trim().replace(<edge-quote regex>, "")`'s replace part:
the regex removes at most one leading and at most one trailing quote character. -/
def stripEdgeQuotes (s : String) : String :=
  let l := s.data
  let l1 := match l with
    | [] => ([] : List Char)
    | c :: rest => if isQuoteChar c then rest else l
  let l2 := match l1.getLast? with
    | some c => if isQuoteChar c then l1.dropLast else l1
    | none => l1
  String.mk l2

/-- Embedding of `RAGAgent.optimizeQuery` (src/src/agents/human-feedback.ts
lines 459-494): ask the reasoning model to rewrite the question; on success with
non-empty output return the trimmed, edge-quote-stripped text, otherwise fall
back to the raw user question.  (The surrounding try/catch is subsumed: the
gateway never throws.) -/
def optimizeQuery (o : RagOracle) (userQuestion : String) : String :=
  let result := generateReasoningGo o.optAttempts 3 0
  if result.success && jsTruthyStr result.data then
    stripEdgeQuotes (jsTrim (jsOrStr result.data ""))
  else
    userQuestion

/-- Modelled from the spec: `BaseAgent.searchKnowledgeBase`, the Semantic
Retriever of spec section 4.4.  The RAG flavour of BaseAgent that defines it is
not under src/ (src/src/agents/human-feedback.ts inherits it; only its callers
are available).  Per the spec it embeds the query through the inference gateway,
propagates an embedding failure (retrieval cannot proceed without a vector), and
otherwise issues a top-k query against the vector index, returning the ranked
references. -/
def searchKnowledgeBase (o : RagOracle) (query : String) (limit : Nat) :
    Except String (List VectorSearchResult) × List RagStage :=
  let e := generateEmbeddingsGo (o.embedAttempts query) 3 0
  match e.data with
  | some v =>
    (o.vectorQuery v limit, [RagStage.searchEv query limit, RagStage.embedEv, RagStage.vectorQueryEv])
  | none =>
    (.error (tmplStr e.error), [RagStage.searchEv query limit, RagStage.embedEv])

/-! ### Context construction (src/src/agents/human-feedback.ts lines 505-552) -/

/-- Rendering of `(result.score * 100).toFixed(1)` over exact rationals
(one decimal digit, round half up; scores lie in [0,1] so no negative cases). -/
def formatPercent (score : ℚ) : String :=
  let n : Int := ⌊score * 1000 + 1/2⌋
  toString (n / 10) ++ "." ++ toString (n % 10)

/-- Rendering of `${article.ranking || "Not ranked"}` (0 and null are falsy). -/
def rankingText (r : Option Nat) : String :=
  match r with
  | some v => if v = 0 then "Not ranked" else toString v
  | none => "Not ranked"

/-- The per-reference context entry template of `constructContext`
(after the template literal's final `.trim()`). -/
def renderEntry (r : VectorSearchResult) (a : ArticleRow) (tags : List String) : String :=
  "Article [ID: " ++ toString r.articleId ++ "] (Relevance: " ++ formatPercent r.score
    ++ "%)\nTitle: " ++ jsOrStr a.title "Untitled"
    ++ "\nAuthor: " ++ jsOrStr a.author "Unknown"
    ++ "\nPublished: " ++ jsOrStr a.published_date "Unknown"
    ++ "\nURL: " ++ a.url
    ++ "\nTags: " ++ jsOrStr (some (String.intercalate ", " tags)) "None"
    ++ "\nSummary: " ++ jsOrStr a.description "No description available"
    ++ "\nTime ROI: " ++ jsOrStr a.time_roi "Not assessed"
    ++ "\nQuality Ranking: " ++ rankingText a.ranking ++ "/100\n---"

/-- Embedding of the loop of `RAGAgent.constructContext`: for each reference
fetch the record from D1 (`getArticleById`); a missing record (`.ok none`) is
skipped with `continue`; a found record's tags are fetched and the entry is
rendered.  A thrown D1 error (`.error`) propagates out (to `answerQuery`'s
catch). -/
def constructContextGo (o : RagOracle) : List VectorSearchResult → Except String (List String)
  | [] => .ok []
  | r :: rest =>
    match o.lookup r.articleId with
    | .error e => .error e
    | .ok none => constructContextGo o rest
    | .ok (some article) =>
      match o.tagsOf r.articleId with
      | .error e => .error e
      | .ok tags =>
        match constructContextGo o rest with
        | .error e => .error e
        | .ok parts => .ok (renderEntry r article tags :: parts)

/-- `constructContext`: the entries joined with a blank-line separator. -/
def constructContext (o : RagOracle) (retrievedArticles : List VectorSearchResult) :
    Except String String :=
  match constructContextGo o retrievedArticles with
  | .error e => .error e
  | .ok parts => .ok (String.intercalate "\n\n" parts)

/-! ### answerQuery (src/src/agents/human-feedback.ts lines 307-448) -/

/-- The canned StructuredAnswer returned when retrieval finds zero references. -/
def emptyAnswer : RAGQueryResult :=
  { thinking_process := "No relevant articles found in the knowledge base.",
    answer_markdown := "I couldn't find any articles in your feed related to this question. Try adding more articles or asking about a different topic.",
    confidence_score := 0,
    cited_article_ids := [],
    follow_up_suggestions :=
      ["What articles do I have in my feed?",
       "Show me recent articles",
       "What topics do my articles cover?"] }

/-- The try-block body of `RAGAgent.answerQuery`: optimise the query, retrieve,
return the canned answer on zero references, otherwise build the context and run
the two-stage synthesis; a failed synthesis throws `aiResult.error || "AI
reasoning failed"`.  The second component is the trace of pipeline events. -/
def answerQueryBody (o : RagOracle) (userQuestion : String) (retrievalLimit : Nat) :
    Except String RAGResponse × List RagStage :=
  let optimizedQuery := optimizeQuery o userQuestion
  let sr := searchKnowledgeBase o optimizedQuery retrievalLimit
  match sr.1 with
  | .error e => (.error e, sr.2)
  | .ok retrievedArticles =>
    if retrievedArticles.length = 0 then
      (.ok { success := true, data := some emptyAnswer,
             retrieved_articles := some [], error := none }, sr.2)
    else
      match constructContext o retrievedArticles with
      | .error e => (.error e, sr.2)
      | .ok _contextBlock =>
        let ai := generateStructuredReasoningT o.synthReasonAttempts o.synthStructAttempts 3
        if ai.1.success && ai.1.data.isSome then
          (.ok { success := true, data := ai.1.data,
                 retrieved_articles := some retrievedArticles, error := none },
           sr.2 ++ ai.2)
        else
          (.error (jsOrStr ai.1.error "AI reasoning failed"), sr.2 ++ ai.2)

/-- `RAGAgent.answerQuery`: the body wrapped in the catch-all that converts any
thrown error into `{ success: false, error: <message> }`. -/
def answerQuery (o : RagOracle) (userQuestion : String) (retrievalLimit : Nat) :
    RAGResponse × List RagStage :=
  match answerQueryBody o userQuestion retrievalLimit with
  | (.ok r, t) => (r, t)
  | (.error e, t) =>
    ({ success := false, data := none, retrieved_articles := none, error := some e }, t)

/-! ### The agentic-query HTTP handler (src/server/api/agent/ingest.post.ts,
POST /api/agent/agentic-query, lines 263-368) -/

/-- Request body: `query` must be a present, truthy string; `limit` defaults
to 10 when absent.  (A non-number `limit` is rejected by the same guard as an
out-of-range one; the model covers the numeric cases.) -/
structure QueryRequestBody where
  query : Option String
  limit : Option Int
deriving Repr, DecidableEq

structure HandlerResponse where
  success : Bool
  error : Option String
  answer : Option RAGQueryResult
  retrieved : Option (List VectorSearchResult)
deriving Repr, DecidableEq

/-- Embedding of the agentic-query handler: validate the query string, validate
`limit ∈ [1,50]` (rejecting, not clamping), then run `answerQuery` and wrap its
result.  The handler's per-article D1 enrichment of the retrieved references is
elided (it follows the `answerQuery` call and affects no verified claim); the
raw retrieved references are passed through. -/
def agenticQueryHandler (o : RagOracle) (body : QueryRequestBody) :
    HandlerResponse × List RagStage :=
  match body.query with
  | none =>
    ({ success := false, error := some "Query is required and must be a string",
       answer := none, retrieved := none }, [])
  | some q =>
    if q = "" then
      ({ success := false, error := some "Query is required and must be a string",
         answer := none, retrieved := none }, [])
    else
      let limit : Int := body.limit.getD 10
      if limit < 1 || limit > 50 then
        ({ success := false, error := some "Limit must be a number between 1 and 50",
           answer := none, retrieved := none }, [])
      else
        let res := answerQuery o q limit.toNat
        if res.1.success then
          ({ success := true, error := none, answer := res.1.data,
             retrieved := res.1.retrieved_articles }, res.2)
        else
          ({ success := false, error := some (jsOrStr res.1.error "Query failed"),
             answer := none, retrieved := none }, res.2)

/-! ### Quality re-evaluator (src/src/agents/evaluator.ts) -/

/-- JavaScript `x || d` on an optional number (0, null and undefined are falsy). -/
def jsOrNat (o : Option Nat) (d : Nat) : Nat :=
  match o with
  | some v => if v = 0 then d else v
  | none => d

/-- Aggregated feedback statistics (`FeedbackPattern` of src/src/agents/types.ts),
as produced by `loadGlobalContext`; only the fields the evaluator reads. -/
structure FeedbackPattern where
  totalArticles : Nat
  upvotedArticles : Nat
  downvotedArticles : Nat
  savedArticles : Nat
  archivedArticles : Nat
  averageRanking : ℚ
deriving Repr, DecidableEq

structure EvaluationCriteria where
  minimumDepth : Nat
  maximumGenericScore : Nat
  requiresOriginalInsight : Bool
  checkForClickbait : Bool
deriving Repr, DecidableEq

/-- `EvaluatorOptimizerAgent.buildStricterCriteria` (src/src/agents/evaluator.ts
lines 106-120). -/
def buildStricterCriteria (fp : FeedbackPattern) : EvaluationCriteria :=
  let upvoteRate : ℚ :=
    if fp.totalArticles > 0 then (fp.upvotedArticles : ℚ) / (fp.totalArticles : ℚ)
    else 3/10
  { minimumDepth := if upvoteRate > 1/2 then 80 else 60,
    maximumGenericScore := 40,
    requiresOriginalInsight := decide (upvoteRate > 2/5),
    checkForClickbait := true }

structure StricterAnalysis where
  ranking : Nat
  time_roi : String
  confidence : ℚ
  reasoning : String
deriving Repr, DecidableEq

/-- `EvaluatorOptimizerAgent.performStricterAnalysis` (src/src/agents/evaluator.ts
lines 125-170): the `askAI` call's response is bound to an unused variable and
discarded (`askAI` itself never throws — its retry loop catches every error), and
the scaffold placeholder is returned: the article's existing ranking and time-ROI
label (with JS-falsy defaulting) at a fixed confidence of 0.8. -/
def performStricterAnalysis (article : ArticleRow) (_criteria : EvaluationCriteria) :
    StricterAnalysis :=
  { ranking := jsOrNat article.ranking 50,
    time_roi := jsOrStr article.time_roi "Unknown",
    confidence := 4/5,
    reasoning := "Not yet implemented - scaffold only" }

structure ReEvaluationResult where
  originalRanking : Nat
  newRanking : Nat
  originalTimeROI : String
  newTimeROI : String
  confidence : ℚ
  shouldDowngrade : Bool
  reasoning : String
  flagForHumanReview : Bool
deriving Repr, DecidableEq

/-- Partial update passed to `BaseAgent.saveArticleAnalysis`; string and numeric
fields are bound as `x || null` (JS-falsy), `status` is bound directly. -/
structure ArticleUpdate where
  title : Option String
  description : Option String
  author : Option String
  published_date : Option String
  time_roi : Option String
  ranking : Option Nat
  status : String
deriving Repr, DecidableEq

/-- JS-falsy binding of an optional string parameter (`x || null`). -/
def jsBindStr (o : Option String) : Option String :=
  match o with
  | some s => if s = "" then none else some s
  | none => none

/-- JS-falsy binding of an optional number parameter (`x || null`). -/
def jsBindNat (o : Option Nat) : Option Nat :=
  match o with
  | some v => if v = 0 then none else some v
  | none => none

/-- SQL COALESCE of a bound parameter against the existing column value. -/
def coalesce {α : Type} (new old : Option α) : Option α :=
  match new with
  | some v => some v
  | none => old

/-- The UPDATE statement of `BaseAgent.saveArticleAnalysis` (src/src/agents/base.ts
lines 234-258) applied to one row: COALESCEd columns, unconditional `status`. -/
def applyUpdateRow (u : ArticleUpdate) (r : ArticleRow) : ArticleRow :=
  { r with
    title := coalesce (jsBindStr u.title) r.title,
    description := coalesce (jsBindStr u.description) r.description,
    author := coalesce (jsBindStr u.author) r.author,
    published_date := coalesce (jsBindStr u.published_date) r.published_date,
    time_roi := coalesce (jsBindStr u.time_roi) r.time_roi,
    ranking := coalesce (jsBindNat u.ranking) r.ranking,
    status := u.status }

def updateArticle (db : List ArticleRow) (articleId : Int) (u : ArticleUpdate) :
    List ArticleRow :=
  db.map (fun r => if r.id = articleId then applyUpdateRow u r else r)

/-- `EvaluatorOptimizerAgent.applyDowngrade` (src/src/agents/evaluator.ts lines
175-191): write back the new ranking and time-ROI via `saveArticleAnalysis`,
binding `status` to "unread" in both arms of its conditional. -/
def applyDowngrade (db : List ArticleRow) (articleId : Int) (result : ReEvaluationResult) :
    List ArticleRow :=
  updateArticle db articleId
    { title := none, description := none, author := none, published_date := none,
      time_roi := some result.newTimeROI, ranking := some result.newRanking,
      status := "unread" }

/-- `EvaluatorOptimizerAgent.reEvaluateArticle` (src/src/agents/evaluator.ts lines
59-101): load the article (throwing if absent), build stricter criteria from the
feedback patterns, run the stricter analysis, compare, and apply the downgrade
write-back only when `shouldDowngrade`.  Returns the result together with the
store after any write-back. -/
def reEvaluateArticle (db : List ArticleRow) (fp : FeedbackPattern) (articleId : Int) :
    Except String (ReEvaluationResult × List ArticleRow) :=
  match db.find? (fun r => r.id == articleId) with
  | none => .error ("Article " ++ toString articleId ++ " not found")
  | some article =>
    let criteria := buildStricterCriteria fp
    let reAnalysis := performStricterAnalysis article criteria
    let result : ReEvaluationResult :=
      { originalRanking := jsOrNat article.ranking 50,
        newRanking := reAnalysis.ranking,
        originalTimeROI := jsOrStr article.time_roi "Unknown",
        newTimeROI := reAnalysis.time_roi,
        confidence := reAnalysis.confidence,
        shouldDowngrade := decide (reAnalysis.ranking < jsOrNat article.ranking 50),
        reasoning := reAnalysis.reasoning,
        flagForHumanReview := decide (reAnalysis.confidence < 7/10) }
    let db' := if result.shouldDowngrade then applyDowngrade db articleId result else db
    .ok (result, db')

/-! ### Pipeline trace lemmas -/

/-- Projection extracting retrieval events (the query they were issued with). -/
def searchEvQuery : RagStage → Option String
  | RagStage.searchEv q _ => some q
  | _ => none

theorem searchKnowledgeBase_trace_no_synth (o : RagOracle) (q : String) (lim : Nat) :
    RagStage.synthReasoningEv ∉ (searchKnowledgeBase o q lim).2
    ∧ RagStage.synthStructuringEv ∉ (searchKnowledgeBase o q lim).2 := by
  unfold searchKnowledgeBase
  cases hd : (generateEmbeddingsGo (o.embedAttempts q) 3 0).data <;> simp [hd]

theorem searchKnowledgeBase_trace_searchEvents (o : RagOracle) (q : String) (lim : Nat) :
    (searchKnowledgeBase o q lim).2.filterMap searchEvQuery = [q] := by
  unfold searchKnowledgeBase
  cases hd : (generateEmbeddingsGo (o.embedAttempts q) 3 0).data <;> simp [hd, searchEvQuery]

theorem generateStructuredReasoningT_trace_searchEvents
    (rAtt : Nat → Except String String)
    (sAtt : Nat → Except String (Option RAGQueryResult)) (n : Nat) :
    (generateStructuredReasoningT rAtt sAtt n).2.filterMap searchEvQuery = [] := by
  unfold generateStructuredReasoningT
  by_cases h1 : (generateReasoningGo rAtt n 0).success
      && jsTruthyStr (generateReasoningGo rAtt n 0).data
  · by_cases h2 : (generateStructuredGo sAtt n 0).success <;> simp [h1, h2, searchEvQuery]
  · simp [h1, searchEvQuery]

theorem answerQuery_eq_of_body_ok (o : RagOracle) (q : String) (lim : Nat)
    (r : RAGResponse) (t : List RagStage)
    (h : answerQueryBody o q lim = (Except.ok r, t)) :
    answerQuery o q lim = (r, t) := by
  unfold answerQuery
  rw [h]

theorem answerQuery_eq_of_body_error (o : RagOracle) (q : String) (lim : Nat)
    (e : String) (t : List RagStage)
    (h : answerQueryBody o q lim = (Except.error e, t)) :
    answerQuery o q lim
      = ({ success := false, data := none, retrieved_articles := none, error := some e }, t) := by
  unfold answerQuery
  rw [h]

theorem answerQueryBody_ok_shape (o : RagOracle) (q : String) (lim : Nat)
    (r : RAGResponse) (t : List RagStage)
    (h : answerQueryBody o q lim = (Except.ok r, t)) :
    r.success = true ∧ r.data.isSome = true := by
  simp only [answerQueryBody] at h
  cases hsr : (searchKnowledgeBase o (optimizeQuery o q) lim).1 with
  | error e => simp only [hsr] at h; simp at h
  | ok ras =>
    simp only [hsr] at h
    by_cases hlen : ras.length = 0
    · simp only [if_pos hlen] at h
      simp only [Prod.mk.injEq, Except.ok.injEq] at h
      obtain ⟨h1, -⟩ := h
      subst h1
      exact ⟨rfl, rfl⟩
    · simp only [if_neg hlen] at h
      cases hcc : constructContext o ras with
      | error e => simp only [hcc] at h; simp at h
      | ok ctx =>
        simp only [hcc] at h
        cases hai : (generateStructuredReasoningT o.synthReasonAttempts
            o.synthStructAttempts 3).1.success
            && (generateStructuredReasoningT o.synthReasonAttempts
                o.synthStructAttempts 3).1.data.isSome with
        | false => simp [hai] at h
        | true =>
          simp only [hai, if_true] at h
          simp only [Prod.mk.injEq, Except.ok.injEq] at h
          obtain ⟨h1, -⟩ := h
          subst h1
          exact ⟨rfl, (Bool.and_eq_true _ _).mp hai |>.2⟩

/-- C1: when semantic retrieval returns zero references, `answerQuery` returns
success with the canned StructuredAnswer — confidence 0, no citations, exactly
3 follow-up suggestions — and neither the reasoning stage nor the structuring
stage of synthesis is invoked. -/
theorem answerQuery_zero_results
    (o : RagOracle) (q : String) (lim : Nat)
    (h : (searchKnowledgeBase o (optimizeQuery o q) lim).1 = Except.ok []) :
    (answerQuery o q lim).1
      = { success := true, data := some emptyAnswer,
          retrieved_articles := some [], error := none }
    ∧ emptyAnswer.confidence_score = 0
    ∧ emptyAnswer.cited_article_ids = []
    ∧ emptyAnswer.follow_up_suggestions.length = 3
    ∧ RagStage.synthReasoningEv ∉ (answerQuery o q lim).2
    ∧ RagStage.synthStructuringEv ∉ (answerQuery o q lim).2 := by
  have hbody : answerQueryBody o q lim
      = (Except.ok { success := true, data := some emptyAnswer,
                     retrieved_articles := some [], error := none },
         (searchKnowledgeBase o (optimizeQuery o q) lim).2) := by
    simp [answerQueryBody, h]
  have heq := answerQuery_eq_of_body_ok o q lim _ _ hbody
  have hns := searchKnowledgeBase_trace_no_synth o (optimizeQuery o q) lim
  rw [heq]
  exact ⟨rfl, rfl, rfl, rfl, hns.1, hns.2⟩

/-- Oracle on which retrieval succeeds with zero references. -/
def emptySearchOracle : RagOracle :=
  { optAttempts := fun _ => Except.ok "optimized query",
    embedAttempts := fun _ _ => Except.ok (some [0]),
    vectorQuery := fun _ _ => Except.ok [],
    lookup := fun _ => Except.ok none,
    tagsOf := fun _ => Except.ok [],
    synthReasonAttempts := fun _ => Except.ok "r",
    synthStructAttempts := fun _ => Except.ok none }

/-- Witness for C1 at a concrete oracle with an empty retrieval result. -/
theorem answerQuery_zero_results_witness :
    ((searchKnowledgeBase emptySearchOracle
        (optimizeQuery emptySearchOracle "What is new?") 10).1 = Except.ok [])
    ∧ (answerQuery emptySearchOracle "What is new?" 10).1
        = { success := true, data := some emptyAnswer,
            retrieved_articles := some [], error := none } :=
  ⟨rfl, (answerQuery_zero_results emptySearchOracle "What is new?" 10 rfl).1⟩

/-! ### C5: nothing escapes answerQuery; the gateway returns tagged failures -/

theorem generateReasoningFrom_all_fail
    (attempts : Nat → Except String String) (n : Nat) (e : String) :
    ∀ (fuel a : Nat), a < n → fuel = n - a →
      (∀ i, i < n → ∃ msg, reasonStep (attempts i) = Except.error msg) →
      reasonStep (attempts (n - 1)) = Except.error e →
      generateReasoningFrom attempts n fuel a
        = { success := false, data := none, error := some (reasonFailMsg n e) } := by
  intro fuel
  induction fuel with
  | zero =>
    intro a ha hfuel hall hlast
    omega
  | succ fuel ih =>
    intro a ha hfuel hall hlast
    by_cases hend : a < n - 1
    · obtain ⟨msg, hmsg⟩ := hall a ha
      simp only [generateReasoningFrom, if_pos ha, hmsg, if_pos hend]
      exact ih (a + 1) (by omega) (by omega) hall hlast
    · have ha' : a = n - 1 := by omega
      subst ha'
      simp only [generateReasoningFrom, if_pos ha, hlast, if_neg hend]

theorem generateReasoningGo_all_fail
    (attempts : Nat → Except String String) (n : Nat) (e : String)
    (hn : 0 < n)
    (hall : ∀ i, i < n → ∃ msg, reasonStep (attempts i) = Except.error msg)
    (hlast : reasonStep (attempts (n - 1)) = Except.error e) :
    generateReasoningGo attempts n 0
      = { success := false, data := none, error := some (reasonFailMsg n e) } := by
  unfold generateReasoningGo
  exact generateReasoningFrom_all_fail attempts n e (n - 0) 0 hn (by omega) hall hlast

theorem answerQuery_shape (o : RagOracle) (q : String) (lim : Nat) :
    ((answerQuery o q lim).1.success = true → (answerQuery o q lim).1.data.isSome = true)
    ∧ ((answerQuery o q lim).1.success = false → (answerQuery o q lim).1.error.isSome = true) := by
  rcases hb : answerQueryBody o q lim with ⟨res, t⟩
  cases res with
  | ok r =>
    rw [answerQuery_eq_of_body_ok o q lim r t hb]
    have h := answerQueryBody_ok_shape o q lim r t hb
    exact ⟨fun _ => h.2, fun hf => by rw [h.1] at hf; cases hf⟩
  | error e' =>
    rw [answerQuery_eq_of_body_error o q lim e' t hb]
    exact ⟨(fun hs => nomatch hs), fun _ => rfl⟩

/-- C5: `answerQuery` never propagates an exception — a thrown error inside the
body surfaces as `success = false` with that error message, a successful result
always carries a populated StructuredAnswer, and the inference gateway's
reasoning operation, after exhausting its retries, returns a tagged failure
carrying the last error instead of throwing. -/
theorem answerQuery_no_escape
    (o : RagOracle) (q : String) (lim : Nat)
    (attempts : Nat → Except String String) (n : Nat) (e : String)
    (hn : 0 < n)
    (hall : ∀ i, i < n → ∃ msg, reasonStep (attempts i) = Except.error msg)
    (hlast : reasonStep (attempts (n - 1)) = Except.error e) :
    (∀ err t, answerQueryBody o q lim = (Except.error err, t) →
      (answerQuery o q lim).1
        = { success := false, data := none, retrieved_articles := none, error := some err })
    ∧ ((answerQuery o q lim).1.success = true → (answerQuery o q lim).1.data.isSome = true)
    ∧ ((answerQuery o q lim).1.success = false → (answerQuery o q lim).1.error.isSome = true)
    ∧ generateReasoningGo attempts n 0
        = { success := false, data := none, error := some (reasonFailMsg n e) } := by
  refine ⟨?_, (answerQuery_shape o q lim).1, (answerQuery_shape o q lim).2,
    generateReasoningGo_all_fail attempts n e hn hall hlast⟩
  intro err t h
  rw [answerQuery_eq_of_body_error o q lim err t h]

/-- Oracle on which every remote call throws. -/
def allFailOracle : RagOracle :=
  { optAttempts := fun _ => Except.error "boom",
    embedAttempts := fun _ _ => Except.error "boom",
    vectorQuery := fun _ _ => Except.error "boom",
    lookup := fun _ => Except.error "boom",
    tagsOf := fun _ => Except.error "boom",
    synthReasonAttempts := fun _ => Except.error "boom",
    synthStructAttempts := fun _ => Except.error "boom" }

/-- Witness for C5 at a concrete all-failing oracle and attempt sequence. -/
theorem answerQuery_no_escape_witness :
    ((0 : Nat) < 3
      ∧ reasonStep (Except.error "boom") = Except.error "boom")
    ∧ ((answerQuery allFailOracle "q" 10).1.success = false →
        (answerQuery allFailOracle "q" 10).1.error.isSome = true)
    ∧ generateReasoningGo (fun _ => Except.error "boom") 3 0
        = { success := false, data := none, error := some (reasonFailMsg 3 "boom") } := by
  refine ⟨⟨by omega, rfl⟩, ?_, ?_⟩
  · exact (answerQuery_no_escape allFailOracle "q" 10 (fun _ => Except.error "boom") 3 "boom"
      (by omega) (fun i _ => ⟨"boom", rfl⟩) rfl).2.2.1
  · exact (answerQuery_no_escape allFailOracle "q" 10 (fun _ => Except.error "boom") 3 "boom"
      (by omega) (fun i _ => ⟨"boom", rfl⟩) rfl).2.2.2

/-! ### C6: query-optimization failure falls back to the raw question -/

theorem optimizeQuery_fallback_cases (o : RagOracle) (q : String) :
    (((generateReasoningGo o.optAttempts 3 0).success = false
        ∨ (generateReasoningGo o.optAttempts 3 0).data = none
        ∨ (generateReasoningGo o.optAttempts 3 0).data = some "") →
      optimizeQuery o q = q)
    ∧ (∀ s, (generateReasoningGo o.optAttempts 3 0).success = true →
        (generateReasoningGo o.optAttempts 3 0).data = some s → s ≠ "" →
        optimizeQuery o q = stripEdgeQuotes (jsTrim s)) := by
  constructor
  · intro hcase
    simp only [optimizeQuery]
    rcases hcase with h | h | h
    · simp [h]
    · simp [h, jsTruthyStr]
    · simp [h, jsTruthyStr]
  · intro s hs hd hne
    simp only [optimizeQuery, hs, hd, jsTruthyStr]
    simp [hne, jsOrStr]

theorem answerQuery_trace_searchEvents (o : RagOracle) (q : String) (lim : Nat) :
    (answerQuery o q lim).2.filterMap searchEvQuery = [optimizeQuery o q] := by
  have h1 := searchKnowledgeBase_trace_searchEvents o (optimizeQuery o q) lim
  have h2 := generateStructuredReasoningT_trace_searchEvents
    o.synthReasonAttempts o.synthStructAttempts 3
  unfold answerQuery
  simp only [answerQueryBody]
  cases hsr : (searchKnowledgeBase o (optimizeQuery o q) lim).1 with
  | error e => simpa only [hsr] using h1
  | ok ras =>
    simp only [hsr]
    by_cases hlen : ras.length = 0
    · simpa only [if_pos hlen] using h1
    · simp only [if_neg hlen]
      cases hcc : constructContext o ras with
      | error e => simpa only [hcc] using h1
      | ok ctx =>
        simp only [hcc]
        cases hai : (generateStructuredReasoningT o.synthReasonAttempts
            o.synthStructAttempts 3).1.success
            && (generateStructuredReasoningT o.synthReasonAttempts
                o.synthStructAttempts 3).1.data.isSome with
        | true =>
          simp only [hai, if_true, List.filterMap_append, h1, h2, List.append_nil]
        | false =>
          simp only [hai, Bool.false_eq_true, if_false, List.filterMap_append, h1, h2,
            List.append_nil]

/-- C6: when the query-optimization reasoning call fails (including exhausting
all retries) or returns empty output, retrieval uses the original question
string unmodified; when it succeeds, retrieval uses the reasoning output
trimmed with one leading and one trailing quote character stripped.  The last
conjunct ties this to the pipeline: the retrieval event of any `answerQuery`
run carries exactly the optimized (or fallen-back) query. -/
theorem optimizeQuery_failure_fallback (o : RagOracle) (q : String) (lim : Nat) :
    (((generateReasoningGo o.optAttempts 3 0).success = false
        ∨ (generateReasoningGo o.optAttempts 3 0).data = none
        ∨ (generateReasoningGo o.optAttempts 3 0).data = some "") →
      optimizeQuery o q = q)
    ∧ (∀ s, (generateReasoningGo o.optAttempts 3 0).success = true →
        (generateReasoningGo o.optAttempts 3 0).data = some s → s ≠ "" →
        optimizeQuery o q = stripEdgeQuotes (jsTrim s))
    ∧ (answerQuery o q lim).2.filterMap searchEvQuery = [optimizeQuery o q] :=
  ⟨(optimizeQuery_fallback_cases o q).1, (optimizeQuery_fallback_cases o q).2,
   answerQuery_trace_searchEvents o q lim⟩

/-- Witness for C6: a failing optimization falls back to the original question;
a succeeding one yields the cleaned reasoning output. -/
theorem optimizeQuery_failure_fallback_witness :
    ((generateReasoningGo allFailOracle.optAttempts 3 0).success = false
      ∧ optimizeQuery allFailOracle "original question" = "original question")
    ∧ ((generateReasoningGo emptySearchOracle.optAttempts 3 0).success = true
      ∧ (generateReasoningGo emptySearchOracle.optAttempts 3 0).data = some "optimized query"
      ∧ optimizeQuery emptySearchOracle "original question"
          = stripEdgeQuotes (jsTrim "optimized query")) := by
  constructor
  · exact ⟨rfl,
      (optimizeQuery_failure_fallback allFailOracle "original question" 10).1 (Or.inl rfl)⟩
  · exact ⟨rfl, rfl,
      (optimizeQuery_failure_fallback emptySearchOracle "original question" 10).2.1
        "optimized query" rfl rfl (by decide)⟩

/-! ### C7: out-of-range limit is rejected before retrieval -/

/-- C7: for a well-formed query and a limit outside [1,50], the agentic-query
endpoint answers with the descriptive limit error and performs no pipeline work
at all: its event trace is empty, so in particular no embedding call and no
vector-index query is issued (and the limit is not silently clamped). -/
theorem agenticQuery_limit_rejected
    (o : RagOracle) (body : QueryRequestBody) (q : String)
    (hq : body.query = some q) (hq' : q ≠ "")
    (hlim : body.limit.getD 10 < 1 ∨ body.limit.getD 10 > 50) :
    agenticQueryHandler o body
      = ({ success := false, error := some "Limit must be a number between 1 and 50",
           answer := none, retrieved := none }, [])
    ∧ RagStage.embedEv ∉ (agenticQueryHandler o body).2
    ∧ RagStage.vectorQueryEv ∉ (agenticQueryHandler o body).2 := by
  have h : agenticQueryHandler o body
      = ({ success := false, error := some "Limit must be a number between 1 and 50",
           answer := none, retrieved := none }, []) := by
    simp only [agenticQueryHandler, hq]
    rw [if_neg hq']
    rcases hlim with h | h
    · simp [h]
    · simp [h]
  refine ⟨h, ?_, ?_⟩ <;> rw [h] <;> simp

/-- Witness for C7 at the concrete limit 0. -/
theorem agenticQuery_limit_rejected_witness :
    (({ query := some "What is new?", limit := some 0 } : QueryRequestBody).limit.getD 10 < 1)
    ∧ agenticQueryHandler allFailOracle { query := some "What is new?", limit := some 0 }
        = ({ success := false, error := some "Limit must be a number between 1 and 50",
             answer := none, retrieved := none }, []) :=
  ⟨by decide,
   (agenticQuery_limit_rejected allFailOracle
      { query := some "What is new?", limit := some 0 } "What is new?" rfl (by decide)
      (Or.inl (by decide))).1⟩

/-! ### C8: references with no backing record are skipped, not fatal -/

/-- The context entry a reference contributes: `none` when its record lookup
finds nothing (the reference is omitted), the rendered block otherwise. -/
def contextEntryOf (o : RagOracle) (r : VectorSearchResult) : Option String :=
  match o.lookup r.articleId with
  | Except.ok (some a) =>
    match o.tagsOf r.articleId with
    | Except.ok tags => some (renderEntry r a tags)
    | Except.error _ => none
  | _ => none

theorem constructContextGo_filterMap (o : RagOracle) :
    ∀ ras : List VectorSearchResult,
      (∀ r ∈ ras, (∃ v, o.lookup r.articleId = Except.ok v)
        ∧ (∀ a, o.lookup r.articleId = Except.ok (some a) →
            ∃ ts, o.tagsOf r.articleId = Except.ok ts)) →
      constructContextGo o ras = Except.ok (ras.filterMap (contextEntryOf o))
  | [], _ => by simp [constructContextGo]
  | r :: rest, hok => by
    obtain ⟨⟨v, hv⟩, htags⟩ := hok r (List.mem_cons_self r rest)
    have ih := constructContextGo_filterMap o rest
      (fun x hx => hok x (List.mem_cons_of_mem r hx))
    cases v with
    | none =>
      simp [constructContextGo, hv, ih, contextEntryOf, List.filterMap_cons]
    | some a =>
      obtain ⟨ts, hts⟩ := htags a hv
      simp [constructContextGo, hv, hts, ih, contextEntryOf, List.filterMap_cons]

/-- C8: provided the store calls themselves do not throw, context construction
never aborts: it returns the rendered entries of exactly those references whose
record lookup found a row, and every reference whose record is absent
contributes nothing. -/
theorem constructContext_skips_missing
    (o : RagOracle) (ras : List VectorSearchResult)
    (hok : ∀ r ∈ ras, (∃ v, o.lookup r.articleId = Except.ok v)
        ∧ (∀ a, o.lookup r.articleId = Except.ok (some a) →
            ∃ ts, o.tagsOf r.articleId = Except.ok ts)) :
    constructContextGo o ras = Except.ok (ras.filterMap (contextEntryOf o))
    ∧ (∀ r ∈ ras, o.lookup r.articleId = Except.ok none → contextEntryOf o r = none) :=
  ⟨constructContextGo_filterMap o ras hok,
   fun r _ hnone => by simp [contextEntryOf, hnone]⟩

/-- A store row used by concrete witnesses. -/
def witnessRow : ArticleRow :=
  { id := 1, url := "https://example.com/a", title := some "T",
    description := none, author := none, published_date := none,
    time_roi := none, ranking := some 80, status := "unread" }

/-- Oracle whose store contains only record 1. -/
def skipOracle : RagOracle :=
  { optAttempts := fun _ => Except.ok "optimized query",
    embedAttempts := fun _ _ => Except.ok (some [0]),
    vectorQuery := fun _ _ => Except.ok [],
    lookup := fun i => if i = 1 then Except.ok (some witnessRow) else Except.ok none,
    tagsOf := fun _ => Except.ok [],
    synthReasonAttempts := fun _ => Except.ok "r",
    synthStructAttempts := fun _ => Except.ok none }

def refA : VectorSearchResult := { vecId := "a", score := 1, articleId := 1 }

def refB : VectorSearchResult := { vecId := "b", score := 1, articleId := 2 }

/-- Witness for C8: of two references, the one whose record is missing is
omitted and construction completes with the surviving entry. -/
theorem constructContext_skips_missing_witness :
    (∀ r ∈ [refA, refB], (∃ v, skipOracle.lookup r.articleId = Except.ok v)
        ∧ (∀ a, skipOracle.lookup r.articleId = Except.ok (some a) →
            ∃ ts, skipOracle.tagsOf r.articleId = Except.ok ts))
    ∧ constructContextGo skipOracle [refA, refB]
        = Except.ok ([refA, refB].filterMap (contextEntryOf skipOracle))
    ∧ [refA, refB].filterMap (contextEntryOf skipOracle)
        = [renderEntry refA witnessRow []] := by
  have hok : ∀ r ∈ [refA, refB], (∃ v, skipOracle.lookup r.articleId = Except.ok v)
      ∧ (∀ a, skipOracle.lookup r.articleId = Except.ok (some a) →
          ∃ ts, skipOracle.tagsOf r.articleId = Except.ok ts) := by
    intro r hr
    rcases List.mem_cons.mp hr with rfl | hr2
    · exact ⟨⟨some witnessRow, rfl⟩, fun a _ => ⟨[], rfl⟩⟩
    · rcases List.mem_cons.mp hr2 with rfl | hr3
      · refine ⟨⟨none, rfl⟩, fun a ha => ?_⟩
        simp [skipOracle, refB] at ha
      · cases hr3
  exact ⟨hok, (constructContext_skips_missing skipOracle [refA, refB] hok).1, rfl⟩

/-! ### C4: cited ids versus retrieved ids -/

theorem structStep_eq_ok {T : Type} {o : Except String (Option T)} {v : T}
    (h : structStep o = Except.ok v) : o = Except.ok (some v) := by
  cases o with
  | error e => simp [structStep] at h
  | ok d =>
    cases d with
    | none => simp [structStep] at h
    | some x =>
      simp only [structStep, Except.ok.injEq] at h
      rw [h]

theorem generateStructuredFrom_data_mem {T : Type}
    (attempts : Nat → Except String (Option T)) (n : Nat) :
    ∀ (fuel a : Nat) (t : T),
      (generateStructuredFrom attempts n fuel a).data = some t →
      ∃ i, attempts i = Except.ok (some t) := by
  intro fuel
  induction fuel with
  | zero => intro a t h; simp [generateStructuredFrom] at h
  | succ fuel ih =>
    intro a t h
    simp only [generateStructuredFrom] at h
    by_cases ha : a < n
    · rw [if_pos ha] at h
      cases hs : structStep (attempts a) with
      | ok v =>
        simp only [hs] at h
        simp only [Option.some.injEq] at h
        subst h
        exact ⟨a, structStep_eq_ok hs⟩
      | error e =>
        simp only [hs] at h
        by_cases hend : a < n - 1
        · rw [if_pos hend] at h
          exact ih (a + 1) t h
        · rw [if_neg hend] at h
          simp at h
    · rw [if_neg ha] at h
      simp at h

theorem generateStructuredReasoningT_data_mem
    (rAtt : Nat → Except String String)
    (sAtt : Nat → Except String (Option RAGQueryResult)) (n : Nat) (t : RAGQueryResult)
    (h : (generateStructuredReasoningT rAtt sAtt n).1.data = some t) :
    ∃ i, sAtt i = Except.ok (some t) := by
  simp only [generateStructuredReasoningT] at h
  by_cases h1 : ((generateReasoningGo rAtt n 0).success
      && jsTruthyStr (generateReasoningGo rAtt n 0).data) = true
  · simp only [h1, if_true] at h
    by_cases h2 : (generateStructuredGo sAtt n 0).success = true
    · simp only [h2, if_true] at h
      exact generateStructuredFrom_data_mem sAtt n (n - 0) 0 t h
    · simp only [h2, if_false, Bool.false_eq_true] at h
      simp at h
  · simp only [h1, if_false, Bool.false_eq_true] at h
    simp at h

/-- Every populated answer of `answerQuery` is either the canned zero-result
answer or the verbatim output of one structuring-model attempt: the pipeline
performs no validation of the structured payload. -/
theorem answerQuery_data_cases (o : RagOracle) (q : String) (lim : Nat)
    (d : RAGQueryResult) (hd : (answerQuery o q lim).1.data = some d) :
    d = emptyAnswer ∨ ∃ i, o.synthStructAttempts i = Except.ok (some d) := by
  rcases hb : answerQueryBody o q lim with ⟨res, t⟩
  cases res with
  | error e =>
    rw [answerQuery_eq_of_body_error o q lim e t hb] at hd
    simp at hd
  | ok r =>
    rw [answerQuery_eq_of_body_ok o q lim r t hb] at hd
    simp only [answerQueryBody] at hb
    cases hsr : (searchKnowledgeBase o (optimizeQuery o q) lim).1 with
    | error e => simp only [hsr] at hb; simp at hb
    | ok ras =>
      simp only [hsr] at hb
      by_cases hlen : ras.length = 0
      · simp only [if_pos hlen] at hb
        simp only [Prod.mk.injEq, Except.ok.injEq] at hb
        obtain ⟨h1, -⟩ := hb
        subst h1
        simp only [Option.some.injEq] at hd
        exact Or.inl hd.symm
      · simp only [if_neg hlen] at hb
        cases hcc : constructContext o ras with
        | error e => simp only [hcc] at hb; simp at hb
        | ok ctx =>
          simp only [hcc] at hb
          cases hai : (generateStructuredReasoningT o.synthReasonAttempts
              o.synthStructAttempts 3).1.success
              && (generateStructuredReasoningT o.synthReasonAttempts
                  o.synthStructAttempts 3).1.data.isSome with
          | false => simp [hai] at hb
          | true =>
            simp only [hai, if_true] at hb
            simp only [Prod.mk.injEq, Except.ok.injEq] at hb
            obtain ⟨h1, -⟩ := hb
            subst h1
            exact Or.inr (generateStructuredReasoningT_data_mem
              o.synthReasonAttempts o.synthStructAttempts 3 d hd)

/-- The article ids of the references retrieved for a query (empty when
retrieval itself failed). -/
def retrievedIds (o : RagOracle) (q : String) (lim : Nat) : List Int :=
  match (searchKnowledgeBase o (optimizeQuery o q) lim).1 with
  | Except.ok ras => ras.map (fun r => r.articleId)
  | Except.error _ => []

/-- A structured-model output citing id 999, which is in no retrieved set. -/
def badCitationAnswer : RAGQueryResult :=
  { thinking_process := "t", answer_markdown := "a", confidence_score := 80,
    cited_article_ids := [999],
    follow_up_suggestions := ["f1", "f2", "f3"] }

/-- Oracle on which retrieval returns exactly record 1 and the structuring
stage outputs a citation of the absent id 999. -/
def overciteOracle : RagOracle :=
  { optAttempts := fun _ => Except.ok "optimized query",
    embedAttempts := fun _ _ => Except.ok (some [0]),
    vectorQuery := fun _ _ => Except.ok [refA],
    lookup := fun _ => Except.ok (some witnessRow),
    tagsOf := fun _ => Except.ok [],
    synthReasonAttempts := fun _ => Except.ok "reasoned",
    synthStructAttempts := fun _ => Except.ok (some badCitationAnswer) }

/-- C4 counterexample: a successful `answerQuery` run that reaches synthesis
can return cited ids outside the retrieved set — the code never checks the
structured output's `cited_article_ids` against the retrieved references. -/
theorem citedIds_not_subset_counterexample :
    (answerQuery overciteOracle "q" 10).1.success = true
    ∧ (answerQuery overciteOracle "q" 10).1.data = some badCitationAnswer
    ∧ (answerQuery overciteOracle "q" 10).1.retrieved_articles = some [refA]
    ∧ (999 : Int) ∈ badCitationAnswer.cited_article_ids
    ∧ ¬ ((999 : Int) ∈ [refA].map (fun r => r.articleId)) := by
  refine ⟨rfl, rfl, rfl, ?_, ?_⟩
  · simp [badCitationAnswer]
  · simp [refA]

/-- C4 (amended): `answerQuery` returns the structuring stage's cited ids
verbatim and unvalidated; consequently the cited ids are a subset of the
retrieved ids exactly under the assumption that every structured-model output
only cites retrieved ids.  (The zero-result answer cites nothing.) -/
theorem citedIds_subset_of_model_subset
    (o : RagOracle) (q : String) (lim : Nat)
    (hmodel : ∀ i r, o.synthStructAttempts i = Except.ok (some r) →
      ∀ c ∈ r.cited_article_ids, c ∈ retrievedIds o q lim) :
    ∀ d, (answerQuery o q lim).1.data = some d →
      ∀ c ∈ d.cited_article_ids, c ∈ retrievedIds o q lim := by
  intro d hd c hc
  rcases answerQuery_data_cases o q lim d hd with h | ⟨i, hi⟩
  · subst h
    cases hc
  · exact hmodel i d hi c hc

/-- A structured-model output citing only the retrieved record 1. -/
def goodCitationAnswer : RAGQueryResult :=
  { thinking_process := "t", answer_markdown := "a", confidence_score := 80,
    cited_article_ids := [1],
    follow_up_suggestions := ["f1", "f2", "f3"] }

/-- Oracle whose structuring output cites only the retrieved record 1. -/
def goodCitationOracle : RagOracle :=
  { optAttempts := fun _ => Except.ok "optimized query",
    embedAttempts := fun _ _ => Except.ok (some [0]),
    vectorQuery := fun _ _ => Except.ok [refA],
    lookup := fun _ => Except.ok (some witnessRow),
    tagsOf := fun _ => Except.ok [],
    synthReasonAttempts := fun _ => Except.ok "reasoned",
    synthStructAttempts := fun _ => Except.ok (some goodCitationAnswer) }

/-- Witness for the amended C4 theorem at a concrete well-citing oracle. -/
theorem citedIds_subset_of_model_subset_witness :
    (∀ i r, goodCitationOracle.synthStructAttempts i = Except.ok (some r) →
      ∀ c ∈ r.cited_article_ids, c ∈ retrievedIds goodCitationOracle "q" 10)
    ∧ (∀ d, (answerQuery goodCitationOracle "q" 10).1.data = some d →
        ∀ c ∈ d.cited_article_ids, c ∈ retrievedIds goodCitationOracle "q" 10) := by
  have hmodel : ∀ i r, goodCitationOracle.synthStructAttempts i = Except.ok (some r) →
      ∀ c ∈ r.cited_article_ids, c ∈ retrievedIds goodCitationOracle "q" 10 := by
    intro i r hi c hc
    have hr : r = goodCitationAnswer := by
      simpa [goodCitationOracle] using hi.symm
    subst hr
    simp only [goodCitationAnswer] at hc
    simp only [List.mem_singleton] at hc
    subst hc
    show (1 : Int) ∈ retrievedIds goodCitationOracle "q" 10
    decide
  exact ⟨hmodel, citedIds_subset_of_model_subset goodCitationOracle "q" 10 hmodel⟩

/-! ### C9, C10: the quality re-evaluator -/

/-- C9: for every re-evaluation of an existing record, `shouldDowngrade` is
true iff the newly derived score is strictly below the prior score (the prior
score being `ranking || 50`, i.e. defaulting to 50 when the column is unset —
NULL or the schema's 0 default).  The store comes back identical (`db` itself):
no write-back occurs — the stricter analysis reproduces the prior score, so the
downgrade branch is never taken — and in particular the record's lifecycle
status is left unchanged. -/
theorem reEvaluate_downgrade_iff
    (db : List ArticleRow) (fp : FeedbackPattern) (articleId : Int) (article : ArticleRow)
    (h : db.find? (fun r => r.id == articleId) = some article) :
    ∃ res, reEvaluateArticle db fp articleId = Except.ok (res, db)
      ∧ (res.shouldDowngrade = true ↔ res.newRanking < jsOrNat article.ranking 50)
      ∧ res.newRanking = jsOrNat article.ranking 50 := by
  have hsd : decide (jsOrNat article.ranking 50 < jsOrNat article.ranking 50) = false :=
    decide_eq_false (Nat.lt_irrefl _)
  have hfl : decide ((4/5 : ℚ) < 7/10) = false := decide_eq_false (by norm_num)
  refine ⟨{ originalRanking := jsOrNat article.ranking 50,
            newRanking := jsOrNat article.ranking 50,
            originalTimeROI := jsOrStr article.time_roi "Unknown",
            newTimeROI := jsOrStr article.time_roi "Unknown",
            confidence := 4/5,
            shouldDowngrade := false,
            reasoning := "Not yet implemented - scaffold only",
            flagForHumanReview := false }, ?_, ?_, rfl⟩
  · simp only [reEvaluateArticle, h, performStricterAnalysis, hsd, hfl]
    simp
  · simp [Nat.lt_irrefl]

/-- Record and feedback aggregate used by the evaluator witnesses. -/
def evalRow : ArticleRow :=
  { id := 5, url := "https://example.com/e", title := none, description := none,
    author := none, published_date := none, time_roi := some "High ROI",
    ranking := some 90, status := "unread" }

def evalFp : FeedbackPattern :=
  { totalArticles := 10, upvotedArticles := 4, downvotedArticles := 1,
    savedArticles := 2, archivedArticles := 1, averageRanking := 50 }

/-- Witness for C9 at a concrete store of one record. -/
theorem reEvaluate_downgrade_iff_witness :
    ([evalRow].find? (fun r => r.id == (5 : Int)) = some evalRow)
    ∧ ∃ res, reEvaluateArticle [evalRow] evalFp 5 = Except.ok (res, [evalRow])
      ∧ (res.shouldDowngrade = true ↔ res.newRanking < jsOrNat evalRow.ranking 50)
      ∧ res.newRanking = jsOrNat evalRow.ranking 50 :=
  ⟨rfl, reEvaluate_downgrade_iff [evalRow] evalFp 5 evalRow rfl⟩

/-- C10: for every record present in the store, the scaffold re-evaluation is a
no-op: `shouldDowngrade` and `flagForHumanReview` are false, the store is
returned unwritten, and the "new" score and label are the record's existing
ranking and time-ROI (JS-falsy defaulted to 50 / "Unknown") at the fixed
confidence 0.8. -/
theorem reEvaluate_scaffold_noop
    (db : List ArticleRow) (fp : FeedbackPattern) (articleId : Int) (article : ArticleRow)
    (h : db.find? (fun r => r.id == articleId) = some article) :
    ∃ res, reEvaluateArticle db fp articleId = Except.ok (res, db)
      ∧ res.shouldDowngrade = false
      ∧ res.flagForHumanReview = false
      ∧ res.newRanking = jsOrNat article.ranking 50
      ∧ res.newTimeROI = jsOrStr article.time_roi "Unknown"
      ∧ res.confidence = 4/5 := by
  have hsd : decide (jsOrNat article.ranking 50 < jsOrNat article.ranking 50) = false :=
    decide_eq_false (Nat.lt_irrefl _)
  have hfl : decide ((4/5 : ℚ) < 7/10) = false := decide_eq_false (by norm_num)
  refine ⟨{ originalRanking := jsOrNat article.ranking 50,
            newRanking := jsOrNat article.ranking 50,
            originalTimeROI := jsOrStr article.time_roi "Unknown",
            newTimeROI := jsOrStr article.time_roi "Unknown",
            confidence := 4/5,
            shouldDowngrade := false,
            reasoning := "Not yet implemented - scaffold only",
            flagForHumanReview := false }, ?_, rfl, rfl, rfl, rfl, rfl⟩
  simp only [reEvaluateArticle, h, performStricterAnalysis, hsd, hfl]
  simp

/-- Witness for C10 at a concrete store of one record. -/
theorem reEvaluate_scaffold_noop_witness :
    ([evalRow].find? (fun r => r.id == (5 : Int)) = some evalRow)
    ∧ ∃ res, reEvaluateArticle [evalRow] evalFp 5 = Except.ok (res, [evalRow])
      ∧ res.shouldDowngrade = false
      ∧ res.flagForHumanReview = false
      ∧ res.newRanking = jsOrNat evalRow.ranking 50
      ∧ res.newTimeROI = jsOrStr evalRow.time_roi "Unknown"
      ∧ res.confidence = 4/5 :=
  ⟨rfl, reEvaluate_scaffold_noop [evalRow] evalFp 5 evalRow rfl⟩

end NewsNow
